import Mathlib

/-!
Verification of the Newton's-method optimization library (`newton.py`).

The embedding models Python numbers by exact rationals `ℚ` (the claims under
study concern control flow and exact algebraic structure, not floating-point
rounding), Python exceptions by an `Except PyError` monad, and the unbounded
`while` loop by a fuel-indexed recursion whose fuel-exhaustion outcome is kept
distinct from every outcome the Python code can produce.
-/

namespace Newton

/-- The Python exceptions the library can raise: `TypeError` from argument
validation, `ZeroDivisionError` from the `/` operator, `RuntimeError` from the
divergence check. -/
inductive PyError where
  | typeError (msg : String)
  | zeroDivisionError
  | runtimeError (msg : String)
  deriving DecidableEq, Repr

/-- A Python callable from reals to reals: it may raise. -/
abbrev PyFun := ℚ → Except PyError ℚ

/-- Wrap a total mathematical function as a Python callable that never raises. -/
def pureFn (g : ℚ → ℚ) : PyFun := fun x => Except.ok (g x)

/-- Python division: `a / b` raises `ZeroDivisionError` when `b = 0`
(the behaviour for built-in `float`/`int` operands). -/
def pydiv (a b : ℚ) : Except PyError ℚ :=
  if b = 0 then Except.error PyError.zeroDivisionError else Except.ok (a / b)

/-- The shared default for `epsilon` (in `deriv`) and `stop_crit`
(in `optimize`): the literal `1e-5`. -/
def eps0 : ℚ := 1 / 100000

/-- `deriv` (newton.py lines 55-79): returns the closure `first_deriv` that
computes the forward difference quotient `(fun(x + epsilon) - fun(x)) / epsilon`.
Producing the closure itself performs no computation and cannot raise; any
failure of `fun` (or of the division) occurs only when the closure is applied,
in Python's left-to-right evaluation order. -/
def deriv (f : PyFun) (epsilon : ℚ := eps0) : PyFun :=
  fun x => do
    let a ← f (x + epsilon)
    let b ← f x
    pydiv (a - b) epsilon

/-- The exact text of the string returned on non-convergence
(`"Newton's method failed to converge"`, with the apostrophe built by
character code to keep the source ASCII-clean). -/
def nonConvMsg : String :=
  "Newton" ++ (Char.ofNat 39).toString ++ "s method failed to converge"

/-- The message of the fatal divergence `RuntimeError`. -/
def divergeMsg : String := "Optimization appears to be diverging"

/-- The runaway-iterate bound `1e8`. -/
def divergeBound : ℚ := 10 ^ 8

/-- A successful return value of `optimize`: either the tuple
`(optimizer, optimum)` or the non-convergence signal string — both travel in
the same (non-exceptional) return channel. -/
inductive ScalarResult where
  | tuple (optimizer optimum : ℚ)
  | signal (msg : String)
  deriving DecidableEq, Repr

/-- Outcome of running the `while` loop with bounded fuel: either the Python
function returned, or the fuel ran out with the loop still live in state
`(step_diff, x_t)`.  Fuel exhaustion is distinct from every Python outcome. -/
inductive LoopOut where
  | result (r : ScalarResult)
  | fuelOut (step_diff x_t : ℚ)
  deriving DecidableEq, Repr

/-- One Newton update (newton.py line 41):
`x_t - deriv(fun)(x_t) / deriv(deriv(fun))(x_t)`, with Python's evaluation
order (numerator first, then denominator, then the fallible division).  Both
`deriv` applications use the default `epsilon`; the second derivative is the
first-derivative estimator applied to its own output. -/
def newtonStep (f : PyFun) (x_t : ℚ) : Except PyError ℚ := do
  let num ← deriv f eps0 x_t
  let den ← deriv (deriv f eps0) eps0 x_t
  let q ← pydiv num den
  pure (x_t - q)

/-- The `while` loop of `optimize` (newton.py lines 40-52), fuel-indexed.
Each unit of fuel pays for one evaluation of the loop condition. -/
def optimizeLoop (f : PyFun) (stop_crit : ℚ) :
    Nat → ℚ → ℚ → Except PyError LoopOut
  | 0, step_diff, x_t => Except.ok (LoopOut.fuelOut step_diff x_t)
  | fuel + 1, step_diff, x_t =>
    if step_diff > stop_crit then
      match newtonStep f x_t with
      | Except.error e => Except.error e
      | Except.ok x_t_plus_one =>
        let step_diff_new := |x_t_plus_one - x_t|
        if step_diff_new > 2 * step_diff then
          Except.ok (ScalarResult.signal nonConvMsg |> LoopOut.result)
        else if x_t_plus_one > divergeBound then
          Except.error (PyError.runtimeError divergeMsg)
        else
          optimizeLoop f stop_crit fuel step_diff_new x_t_plus_one
    else
      match f x_t with
      | Except.error e => Except.error e
      | Except.ok v => Except.ok (LoopOut.result (ScalarResult.tuple x_t v))

/-- The part of the loop body that runs after the new iterate has been
computed (newton.py lines 42-50): compute `step_diff_new`, commit the step,
run the growth heuristic, the divergence check, and continue the loop. -/
def afterStep (f : PyFun) (stop_crit : ℚ) (fuel : Nat)
    (step_diff x_t x_t_plus_one : ℚ) : Except PyError LoopOut :=
  let step_diff_new := |x_t_plus_one - x_t|
  if step_diff_new > 2 * step_diff then
    Except.ok (ScalarResult.signal nonConvMsg |> LoopOut.result)
  else if x_t_plus_one > divergeBound then
    Except.error (PyError.runtimeError divergeMsg)
  else
    optimizeLoop f stop_crit fuel step_diff_new x_t_plus_one

/-- The whole loop body (newton.py lines 41-50): one Newton step followed by
`afterStep`. -/
def loopBody (f : PyFun) (stop_crit : ℚ) (fuel : Nat)
    (step_diff x_t : ℚ) : Except PyError LoopOut :=
  match newtonStep f x_t with
  | Except.error e => Except.error e
  | Except.ok x_t_plus_one => afterStep f stop_crit fuel step_diff x_t x_t_plus_one

/-- Unfolding equation: with fuel left, the loop either runs its body (when
`step_diff > stop_crit`) or returns the tuple `(x_t, fun(x_t))`. -/
theorem optimizeLoop_succ (f : PyFun) (stop_crit : ℚ) (fuel : Nat)
    (step_diff x_t : ℚ) :
    optimizeLoop f stop_crit (fuel + 1) step_diff x_t =
      if step_diff > stop_crit then
        loopBody f stop_crit fuel step_diff x_t
      else
        match f x_t with
        | Except.error e => Except.error e
        | Except.ok v => Except.ok (LoopOut.result (ScalarResult.tuple x_t v)) := by
  rfl

/-- The surface type tag of the `start` argument, as Python's `type(start)`
sees it.  `bool` is listed separately because `type(True) is int` is false. -/
inductive StartArg where
  | intVal (n : ℤ)
  | floatVal (q : ℚ)
  | boolVal (b : Bool)
  | otherVal (tyName : String)
  deriving DecidableEq, Repr

/-- `type(start) is int`. -/
def StartArg.isIntType : StartArg → Bool
  | StartArg.intVal _ => true
  | _ => false

/-- `type(start) is float`. -/
def StartArg.isFloatType : StartArg → Bool
  | StartArg.floatVal _ => true
  | _ => false

/-- The name `type(start)` prints for the error message. -/
def StartArg.typeName : StartArg → String
  | StartArg.intVal _ => "int"
  | StartArg.floatVal _ => "float"
  | StartArg.boolVal _ => "bool"
  | StartArg.otherVal ty => ty

/-- The numeric value carried by an `int` or `float` start (0 otherwise;
only used after validation has passed). -/
def startToQ : StartArg → ℚ
  | StartArg.intVal n => (n : ℚ)
  | StartArg.floatVal q => q
  | _ => 0

/-- The `fun` argument: either an actual callable or a non-callable object of
some type. -/
inductive FunArg where
  | callable (f : PyFun)
  | notCallable (tyName : String)

/-- The spec's notion of a callable `fun` argument. -/
def isCallableArg : FunArg → Bool
  | FunArg.callable _ => true
  | FunArg.notCallable _ => false

/-- The spec's notion of a real-number `start`: an integer or floating-point
value. -/
def isRealNumber (s : StartArg) : Bool := s.isIntType || s.isFloatType

/-- `optimize` (newton.py lines 5-52): validate `fun` with `callable`,
validate `type(start)` against `int`/`float`, then run the Newton loop from
`step_diff = stop_crit + 1`, `x_t = start`. -/
def optimize (start : StartArg) (farg : FunArg) (stop_crit : ℚ := eps0)
    (fuel : Nat) : Except PyError LoopOut :=
  match farg with
  | FunArg.notCallable ty =>
    Except.error (PyError.typeError
      ("Argument fun is not a function. It is of type " ++ ty ++ "."))
  | FunArg.callable f =>
    if !start.isIntType && !start.isFloatType then
      Except.error (PyError.typeError
        ("Argument start is not an integer or a float. It is of type "
          ++ start.typeName ++ "."))
    else
      optimizeLoop f stop_crit fuel (stop_crit + 1) (startToQ start)

/-- The default finite-difference step is nonzero. -/
theorem eps0_ne : eps0 ≠ 0 := by norm_num [eps0]

/-- Concrete quadratic used in counterexample/witness runs: for
`g t = (t - c)^2 / 2` the forward-difference estimates are
`D(x) = (x - c) + eps0/2` and `D2(x) = 1`, so a single Newton step from any
point lands exactly on `c - eps0/2`. -/
def quadAt (c : ℚ) : ℚ → ℚ := fun t => (t - c) ^ 2 / 2

/-- Center making the first Newton step from 0 land exactly on `-2e8`. -/
def cNeg : ℚ := -200000000 + 1 / 200000

/-- Center making the first Newton step from 0 land exactly on `2e8`. -/
def cPos : ℚ := 200000000 + 1 / 200000

/-- Claim C1: at every live loop iteration, the new iterate is
`x_t - a / b` where `a` is the forward-difference first derivative
`deriv(fun)(x_t)` and `b` is the self-composed estimate
`deriv(deriv(fun))(x_t)`, both with the default epsilon; moreover the
self-composition yields the iterated forward difference
`((f(x+2e) - f(x+e)) - (f(x+e) - f(x))) / e / e`, not a dedicated
second-difference formula. -/
theorem claim1 (f : PyFun) (x a b sd sc : ℚ) (fuel : Nat)
    (hsd : sd > sc)
    (ha : deriv f eps0 x = Except.ok a)
    (hb : deriv (deriv f eps0) eps0 x = Except.ok b)
    (hb0 : b ≠ 0) :
    optimizeLoop f sc (fuel + 1) sd x = afterStep f sc fuel sd x (x - a / b)
    ∧ newtonStep f x = Except.ok (x - a / b)
    ∧ ∀ (g : ℚ → ℚ) (y : ℚ),
        deriv (deriv (pureFn g) eps0) eps0 y
          = Except.ok (((g (y + eps0 + eps0) - g (y + eps0))
              - (g (y + eps0) - g y)) / eps0 / eps0) := by
  have hstep : newtonStep f x = Except.ok (x - a / b) := by
    simp [newtonStep, ha, hb, pydiv, hb0, Bind.bind, Except.bind, Pure.pure, Except.pure]
  refine ⟨?_, hstep, ?_⟩
  · rw [optimizeLoop_succ, if_pos hsd, loopBody, hstep]
  · intro g y
    simp only [deriv, pureFn, pydiv, Bind.bind, Except.bind, eps0_ne, ite_false, if_neg]
    simp [Except.ok.injEq]
    ring

/-- Witness for C1: `fun t = t^2` at `x = 0`, where the two estimates are
`a = 1/100000` and `b = 2`. -/
theorem claim1_witness :
    newtonStep (pureFn (fun t => t * t)) 0 = Except.ok (0 - (1 / 100000) / 2) :=
  (claim1 (pureFn (fun t => t * t)) 0 (1 / 100000) 2 1 0 0 (by norm_num)
    (by norm_num [deriv, pureFn, pydiv, eps0, Bind.bind, Except.bind])
    (by norm_num [deriv, pureFn, pydiv, eps0, Bind.bind, Except.bind])
    (by norm_num)).2.1

/-- Claim C2: the callable returned by `deriv(fun, epsilon)` computes the
forward-difference quotient `(fun(x + epsilon) - fun(x)) / epsilon` (stated
for succeeding evaluations, for failure deferral, and in closed form for
never-raising callables); `deriv` itself has no error conditions. -/
theorem claim2 (f : PyFun) (epsilon x a b : ℚ) (heps : 0 < epsilon)
    (ha : f (x + epsilon) = Except.ok a) (hb : f x = Except.ok b) :
    deriv f epsilon x = Except.ok ((a - b) / epsilon)
    ∧ (∀ (g : PyFun) (e : PyError), g (x + epsilon) = Except.error e →
        deriv g epsilon x = Except.error e)
    ∧ (∀ (g : ℚ → ℚ), deriv (pureFn g) epsilon x
        = Except.ok ((g (x + epsilon) - g x) / epsilon)) := by
  refine ⟨?_, ?_, ?_⟩
  · simp [deriv, ha, hb, pydiv, heps.ne', Bind.bind, Except.bind]
  · intro g e he
    simp [deriv, he, Bind.bind, Except.bind]
  · intro g
    simp [deriv, pureFn, pydiv, heps.ne', Bind.bind, Except.bind]

/-- Witness for C2: the identity function with `epsilon = 1/2` at `x = 0`. -/
theorem claim2_witness :
    deriv (pureFn id) (1 / 2) 0 = Except.ok ((1 / 2 - 0) / (1 / 2)) :=
  (claim2 (pureFn id) (1 / 2) 0 (1 / 2) 0 (by norm_num) (by simp [pureFn])
    (by simp [pureFn])).1

/-- Counterexample to Claim C3: the divergence check at newton.py line 49 is
the signed comparison `x_t > 1e8`, not `|x_t| > 1e8`.  Optimizing
`(x - c)^2 / 2` with `c = -2e8 + eps0/2` from `0` with `stop_crit = 1e8`
commits the iterate `-2e8` (whose magnitude exceeds `1e8`) and then returns
the numeric tuple instead of raising the divergence fault. -/
theorem claim3_counterexample :
    optimize (StartArg.intVal 0) (FunArg.callable (pureFn (quadAt cNeg))) (10 ^ 8) 3
      = Except.ok (LoopOut.result (ScalarResult.tuple (-200000000) (1 / 80000000000)))
    ∧ |(-200000000 : ℚ)| > 10 ^ 8 := by
  constructor
  · norm_num [optimize, optimizeLoop, newtonStep, deriv, pydiv, pureFn, quadAt, cNeg,
      eps0, divergeBound, startToQ, StartArg.isIntType, StartArg.isFloatType,
      Bind.bind, Except.bind, Pure.pure, Except.pure, abs]
  · norm_num [abs]

/-- Claim C3 as amended: after a step is committed (and the growth heuristic
did not trip), the call raises the fatal divergence `RuntimeError` exactly
when the new iterate exceeds `1e8` under the SIGNED comparison `x_t > 1e8`;
iterates below `-1e8` do not trigger the check. -/
theorem claim3 (f : PyFun) (sc sd x x1 : ℚ) (fuel : Nat)
    (hsd : sd > sc) (hstep : newtonStep f x = Except.ok x1)
    (hgrow : ¬ |x1 - x| > 2 * sd) (hdiv : x1 > divergeBound) :
    optimizeLoop f sc (fuel + 1) sd x
      = Except.error (PyError.runtimeError divergeMsg) := by
  rw [optimizeLoop_succ, if_pos hsd, loopBody, hstep]
  simp only [afterStep, if_neg hgrow, if_pos hdiv]

/-- Witness for amended C3: `(x - c)^2 / 2` with `c = 2e8 + eps0/2` steps from
`0` to exactly `2e8 > 1e8` and raises the divergence error. -/
theorem claim3_witness :
    optimizeLoop (pureFn (quadAt cPos)) (10 ^ 8) (1 + 1) (10 ^ 8 + 1) 0
      = Except.error (PyError.runtimeError divergeMsg) :=
  claim3 (pureFn (quadAt cPos)) (10 ^ 8) (10 ^ 8 + 1) 0 200000000 1 (by norm_num)
    (by norm_num [newtonStep, deriv, pydiv, pureFn, quadAt, cPos, eps0,
      Bind.bind, Except.bind, Pure.pure, Except.pure])
    (by norm_num [abs]) (by norm_num [divergeBound])

/-- Claim C4: when the new step difference exceeds twice the previous one,
the loop immediately returns the non-convergence signal as a distinguished
string value in the same (non-exceptional) return channel as a successful
tuple — not as a raised exception. -/
theorem claim4 (f : PyFun) (sc sd x x1 : ℚ) (fuel : Nat)
    (hsd : sd > sc) (hstep : newtonStep f x = Except.ok x1)
    (hgrow : |x1 - x| > 2 * sd) :
    optimizeLoop f sc (fuel + 1) sd x
      = Except.ok (LoopOut.result (ScalarResult.signal nonConvMsg))
    ∧ ∀ (e : PyError), (Except.error e : Except PyError LoopOut)
        ≠ Except.ok (LoopOut.result (ScalarResult.signal nonConvMsg)) := by
  constructor
  · rw [optimizeLoop_succ, if_pos hsd, loopBody, hstep]
    simp only [afterStep, if_pos hgrow]
  · intro e h
    exact Except.noConfusion h

/-- Witness for C4: `(x - 3)^2 / 2` from `0` with the default stopping
criterion makes a first step of magnitude `599999/200000 > 2 * (eps0 + 1)`. -/
theorem claim4_witness :
    optimizeLoop (pureFn (quadAt 3)) eps0 (5 + 1) (eps0 + 1) 0
      = Except.ok (LoopOut.result (ScalarResult.signal nonConvMsg)) :=
  (claim4 (pureFn (quadAt 3)) eps0 (eps0 + 1) 0 (599999 / 200000) 5
    (by norm_num [eps0])
    (by norm_num [newtonStep, deriv, pydiv, pureFn, quadAt, eps0,
      Bind.bind, Except.bind, Pure.pure, Except.pure])
    (by norm_num [abs, eps0])).1

/-- Claim C5: the loop body always executes at least once, because the step
difference starts at `stop_crit + 1 > stop_crit`; and whenever the committed
step difference is at most `stop_crit` at the top of the loop, the loop exits
and returns the tuple `(x_t, fun(x_t))` for the last committed iterate. -/
theorem claim5 (f : PyFun) (sc x sd y v : ℚ) (fuel : Nat)
    (hsd : sd ≤ sc) (hv : f y = Except.ok v) :
    optimizeLoop f sc (fuel + 1) (sc + 1) x = loopBody f sc fuel (sc + 1) x
    ∧ optimizeLoop f sc (fuel + 1) sd y
        = Except.ok (LoopOut.result (ScalarResult.tuple y v)) := by
  constructor
  · rw [optimizeLoop_succ, if_pos (lt_add_one sc)]
  · rw [optimizeLoop_succ, if_neg (not_lt.mpr hsd), hv]

/-- Witness for C5 at `fun = id`, `stop_crit = 0`, exit state `(0, 5)`. -/
theorem claim5_witness :
    optimizeLoop (pureFn id) 0 (0 + 1) (0 + 1) 0 = loopBody (pureFn id) 0 0 (0 + 1) 0
    ∧ optimizeLoop (pureFn id) 0 (0 + 1) 0 5
        = Except.ok (LoopOut.result (ScalarResult.tuple 5 5)) :=
  claim5 (pureFn id) 0 0 0 5 5 0 (by norm_num) (by simp [pureFn])

/-- Claim C6: `optimize` raises a `TypeError` during validation exactly for a
non-callable `fun` or a `start` whose type is neither `int` nor `float`; with
a callable `fun` and an `int`/`float` `start` it instead runs the Newton loop
from scratch (so no iteration precedes a validation failure, and none is
skipped on success). -/
theorem claim6 (start : StartArg) (farg : FunArg) (sc : ℚ) (fuel : Nat) :
    ((isCallableArg farg = false ∨ isRealNumber start = false) →
      ∃ msg, optimize start farg sc fuel = Except.error (PyError.typeError msg))
    ∧ (∀ f, farg = FunArg.callable f → isRealNumber start = true →
        optimize start farg sc fuel
          = optimizeLoop f sc fuel (sc + 1) (startToQ start)) := by
  constructor
  · rintro (h | h)
    · cases farg with
      | callable f => simp [isCallableArg] at h
      | notCallable ty => exact ⟨_, rfl⟩
    · cases farg with
      | callable f =>
        cases start with
        | intVal n => simp [isRealNumber, StartArg.isIntType] at h
        | floatVal q => simp [isRealNumber, StartArg.isFloatType] at h
        | boolVal b => exact ⟨_, rfl⟩
        | otherVal ty => exact ⟨_, rfl⟩
      | notCallable ty => exact ⟨_, rfl⟩
  · rintro f rfl h
    cases start <;>
      simp_all [optimize, isRealNumber, StartArg.isIntType, StartArg.isFloatType]

/-- Witness for C6: a string `start` is rejected with a `TypeError`; a float
`start` with a callable `fun` reaches the loop. -/
theorem claim6_witness :
    (∃ msg, optimize (StartArg.otherVal "str") (FunArg.callable (pureFn id)) eps0 0
        = Except.error (PyError.typeError msg))
    ∧ optimize (StartArg.floatVal 1) (FunArg.callable (pureFn id)) eps0 5
        = optimizeLoop (pureFn id) eps0 5 (eps0 + 1) (startToQ (StartArg.floatVal 1)) :=
  ⟨(claim6 (StartArg.otherVal "str") (FunArg.callable (pureFn id)) eps0 0).1
      (Or.inr (by simp [isRealNumber, StartArg.isIntType, StartArg.isFloatType])),
   (claim6 (StartArg.floatVal 1) (FunArg.callable (pureFn id)) eps0 5).2 (pureFn id) rfl
      (by simp [isRealNumber, StartArg.isIntType, StartArg.isFloatType])⟩

/-- The difference quotient of a callable that returns the same value
everywhere is zero. -/
theorem deriv_of_const (g : PyFun) (c epsilon : ℚ) (heps : epsilon ≠ 0)
    (h : ∀ z, g z = Except.ok c) (y : ℚ) : deriv g epsilon y = Except.ok 0 := by
  simp [deriv, h, pydiv, heps, Bind.bind, Except.bind]

/-- Claim C9: when the self-composed second-derivative estimate is exactly
zero at a visited iterate — as it is at every point for every affine
function — the unguarded Newton-step division raises `ZeroDivisionError`, an
unhandled fault distinct from all three error tiers of the spec (the
`TypeError` of validation, the in-channel non-convergence signal, and the
divergence `RuntimeError`). -/
theorem claim9 (f : PyFun) (x dv sd sc : ℚ) (fuel : Nat)
    (hsd : sd > sc)
    (h1 : deriv f eps0 x = Except.ok dv)
    (h2 : deriv (deriv f eps0) eps0 x = Except.ok 0) :
    optimizeLoop f sc (fuel + 1) sd x = Except.error PyError.zeroDivisionError
    ∧ (∀ a b y : ℚ,
        deriv (deriv (pureFn (fun t => a * t + b)) eps0) eps0 y = Except.ok 0)
    ∧ (∀ m, PyError.zeroDivisionError ≠ PyError.typeError m)
    ∧ (∀ m, PyError.zeroDivisionError ≠ PyError.runtimeError m)
    ∧ (∀ r : LoopOut,
        (Except.error PyError.zeroDivisionError : Except PyError LoopOut)
          ≠ Except.ok r) := by
  have hstep : newtonStep f x = Except.error PyError.zeroDivisionError := by
    simp [newtonStep, h1, h2, pydiv, Bind.bind, Except.bind]
  refine ⟨?_, ?_, ?_, ?_, ?_⟩
  · rw [optimizeLoop_succ, if_pos hsd, loopBody, hstep]
  · intro a b y
    have inner : ∀ z : ℚ, deriv (pureFn (fun t => a * t + b)) eps0 z = Except.ok a := by
      intro z
      simp only [deriv, pureFn, pydiv, Bind.bind, Except.bind, eps0_ne, if_neg,
        ite_false, Except.ok.injEq]
      rw [div_eq_iff eps0_ne]
      ring
    exact deriv_of_const _ a eps0 eps0_ne inner y
  · intro m h
    exact PyError.noConfusion h
  · intro m h
    exact PyError.noConfusion h
  · intro r h
    exact Except.noConfusion h

/-- Witness for C9: the identity function (affine with slope 1) from `0`
raises `ZeroDivisionError` on the first iteration. -/
theorem claim9_witness :
    optimizeLoop (pureFn id) 0 (0 + 1) 1 0 = Except.error PyError.zeroDivisionError :=
  (claim9 (pureFn id) 0 1 1 0 0 (by norm_num)
    (by norm_num [deriv, pureFn, pydiv, eps0, Bind.bind, Except.bind])
    (by norm_num [deriv, pureFn, pydiv, eps0, Bind.bind, Except.bind])).1

/-- Claim C10: with the step difference initialized to `stop_crit + 1`, the
first iteration of `optimize` returns the non-convergence signal exactly when
the magnitude of the first Newton step exceeds `2 * (stop_crit + 1)` — a
threshold that depends on the caller's `stop_crit`, not only on the
iterates. -/
theorem claim10 (f : PyFun) (x0 x1 sc : ℚ)
    (hstep : newtonStep f x0 = Except.ok x1) :
    optimize (StartArg.floatVal x0) (FunArg.callable f) sc 1
        = Except.ok (LoopOut.result (ScalarResult.signal nonConvMsg))
      ↔ |x1 - x0| > 2 * (sc + 1) := by
  have hrun : optimize (StartArg.floatVal x0) (FunArg.callable f) sc 1
      = afterStep f sc 0 (sc + 1) x0 x1 := by
    show optimizeLoop f sc (0 + 1) (sc + 1) x0 = _
    rw [optimizeLoop_succ, if_pos (lt_add_one sc), loopBody, hstep]
  rw [hrun]
  constructor
  · intro h
    by_contra hg
    rw [afterStep] at h
    simp only [if_neg hg] at h
    split at h
    · exact Except.noConfusion h
    · simp [optimizeLoop] at h
  · intro hg
    simp only [afterStep, if_pos hg]

/-- Witness for C10: the quadratic `(x - 3)^2 / 2` makes a first step of
magnitude `599999/200000` from `0`; with the default `stop_crit = 1e-5` the
threshold `2 * (stop_crit + 1)` is exceeded and the signal is returned, while
with `stop_crit = 1` it is not. -/
theorem claim10_witness :
    optimize (StartArg.floatVal 0) (FunArg.callable (pureFn (quadAt 3))) eps0 1
        = Except.ok (LoopOut.result (ScalarResult.signal nonConvMsg))
    ∧ ¬ optimize (StartArg.floatVal 0) (FunArg.callable (pureFn (quadAt 3))) 1 1
        = Except.ok (LoopOut.result (ScalarResult.signal nonConvMsg)) := by
  have hstep : newtonStep (pureFn (quadAt 3)) 0 = Except.ok (599999 / 200000) := by
    norm_num [newtonStep, deriv, pydiv, pureFn, quadAt, eps0,
      Bind.bind, Except.bind, Pure.pure, Except.pure]
  constructor
  · exact (claim10 (pureFn (quadAt 3)) 0 (599999 / 200000) eps0 hstep).mpr
      (by norm_num [abs, eps0])
  · intro h
    have := (claim10 (pureFn (quadAt 3)) 0 (599999 / 200000) 1 hstep).mp h
    norm_num [abs] at this

/-! ## Multivariate case (`optimize_multivar`, newton.py lines 81-123)

The vector iterates live in `Fin n → ℝ`.  The external numerical routines
used by the loop — `nd.Gradient`, `nd.Hessian` (numdifftools) and
`scipy.linalg.solve` — are not part of this repository, so they are modelled
as opaque parameters bundled in `MultivarEnv`; `numpy.linalg.norm` on a
vector is the Euclidean norm, embedded directly. -/

/-- A Python callable from length-`n` real vectors to a real scalar. -/
abbrev VecFun (n : ℕ) := (Fin n → ℝ) → Except PyError ℝ

/-- The external numerical environment of `optimize_multivar`: gradient and
Hessian estimators and a general linear solver for `H · delta = g` that
raises (rather than returning a value) on failure, e.g. on a singular or
shape-mismatched system. -/
structure MultivarEnv (n : ℕ) where
  gradient : VecFun n → (Fin n → ℝ) → Except PyError (Fin n → ℝ)
  hessian : VecFun n → (Fin n → ℝ) → Except PyError (Matrix (Fin n) (Fin n) ℝ)
  solve : Matrix (Fin n) (Fin n) ℝ → (Fin n → ℝ) → Except PyError (Fin n → ℝ)

/-- `numpy.linalg.norm` of a vector: the Euclidean norm. -/
noncomputable def euclNorm {n : ℕ} (v : Fin n → ℝ) : ℝ :=
  Real.sqrt (∑ i, v i ^ 2)

/-- The runaway bound `1e8` of the multivariate divergence check. -/
noncomputable def divergeBoundR : ℝ := 10 ^ 8

/-- A successful return value of `optimize_multivar`: the tuple
`(optimizer, optimum)` or the non-convergence signal string. -/
inductive VecResult (n : ℕ) where
  | tuple (optimizer : Fin n → ℝ) (optimum : ℝ)
  | signal (msg : String)

/-- Outcome of the fuel-indexed multivariate loop. -/
inductive VecLoopOut (n : ℕ) where
  | result (r : VecResult n)
  | fuelOut (step_diff : ℝ) (x_t : Fin n → ℝ)

open Classical in
/-- The `while` loop of `optimize_multivar` (newton.py lines 108-123):
Hessian first, then gradient, then the linear solve
`delta = solve(H, g)`, update `x_t+1 = x_t - delta`, and the same
growth/divergence/stopping policy as the scalar loop with the Euclidean norm
in place of the absolute value. -/
noncomputable def optimizeMultivarLoop {n : ℕ} (env : MultivarEnv n)
    (f : VecFun n) (stop_crit : ℝ) :
    Nat → ℝ → (Fin n → ℝ) → Except PyError (VecLoopOut n)
  | 0, step_diff, x_t => Except.ok (VecLoopOut.fuelOut step_diff x_t)
  | fuel + 1, step_diff, x_t =>
    if step_diff > stop_crit then
      match env.hessian f x_t with
      | Except.error e => Except.error e
      | Except.ok h =>
        match env.gradient f x_t with
        | Except.error e => Except.error e
        | Except.ok g =>
          match env.solve h g with
          | Except.error e => Except.error e
          | Except.ok delta =>
            let x_t_plus_one := x_t - delta
            let step_diff_new := euclNorm (x_t_plus_one - x_t)
            if step_diff_new > 2 * step_diff then
              Except.ok (VecLoopOut.result (VecResult.signal nonConvMsg))
            else if euclNorm x_t_plus_one > divergeBoundR then
              Except.error (PyError.runtimeError divergeMsg)
            else
              optimizeMultivarLoop env f stop_crit fuel step_diff_new x_t_plus_one
    else
      match f x_t with
      | Except.error e => Except.error e
      | Except.ok v => Except.ok (VecLoopOut.result (VecResult.tuple x_t v))

/-- The `fun` argument of `optimize_multivar`. -/
inductive VecFunArg (n : ℕ) where
  | callable (f : VecFun n)
  | notCallable (tyName : String)

/-- `optimize_multivar` (newton.py lines 81-123): the only validation is the
`callable(fun)` check; `start` is passed to the loop unexamined. -/
noncomputable def optimize_multivar {n : ℕ} (env : MultivarEnv n)
    (start : Fin n → ℝ) (farg : VecFunArg n) (stop_crit : ℝ := 1 / 100000)
    (fuel : Nat) : Except PyError (VecLoopOut n) :=
  match farg with
  | VecFunArg.notCallable ty =>
    Except.error (PyError.typeError
      ("Argument fun is not a function. It is of type " ++ ty ++ "."))
  | VecFunArg.callable f =>
    optimizeMultivarLoop env f stop_crit fuel (stop_crit + 1) start

/-- Unfolding equation for the multivariate loop with fuel left. -/
theorem optimizeMultivarLoop_succ {n : ℕ} (env : MultivarEnv n) (f : VecFun n)
    (stop_crit : ℝ) (fuel : Nat) (step_diff : ℝ) (x_t : Fin n → ℝ) :
    optimizeMultivarLoop env f stop_crit (fuel + 1) step_diff x_t =
      if step_diff > stop_crit then
        match env.hessian f x_t with
        | Except.error e => Except.error e
        | Except.ok h =>
          match env.gradient f x_t with
          | Except.error e => Except.error e
          | Except.ok g =>
            match env.solve h g with
            | Except.error e => Except.error e
            | Except.ok delta =>
              let x_t_plus_one := x_t - delta
              let step_diff_new := euclNorm (x_t_plus_one - x_t)
              if step_diff_new > 2 * step_diff then
                Except.ok (VecLoopOut.result (VecResult.signal nonConvMsg))
              else if euclNorm x_t_plus_one > divergeBoundR then
                Except.error (PyError.runtimeError divergeMsg)
              else
                optimizeMultivarLoop env f stop_crit fuel step_diff_new x_t_plus_one
      else
        match f x_t with
        | Except.error e => Except.error e
        | Except.ok v => Except.ok (VecLoopOut.result (VecResult.tuple x_t v)) := by
  rfl

/-- Claim C7: each live multivariate iteration updates by the solution of the
linear system (`x_t+1 = x_t - delta` with `delta = solve(H, g)`), takes the
Euclidean norm of `x_t+1 - x_t` as the new step difference, and applies the
same three-part policy as the scalar loop with `‖x_t‖` in place of `|x_t|`:
growth beyond a factor 2 returns the signal, committed iterate norm beyond
`1e8` raises the divergence error, otherwise the loop continues; a step
difference at most `stop_crit` at the loop head exits with the tuple. -/
theorem claim7 {n : ℕ} (env : MultivarEnv n) (f : VecFun n) (sc sd : ℝ)
    (x g d : Fin n → ℝ) (H : Matrix (Fin n) (Fin n) ℝ) (fuel : Nat)
    (hsd : sd > sc)
    (hH : env.hessian f x = Except.ok H)
    (hg : env.gradient f x = Except.ok g)
    (hd : env.solve H g = Except.ok d) :
    (euclNorm (x - d - x) > 2 * sd →
      optimizeMultivarLoop env f sc (fuel + 1) sd x
        = Except.ok (VecLoopOut.result (VecResult.signal nonConvMsg)))
    ∧ (¬ euclNorm (x - d - x) > 2 * sd → euclNorm (x - d) > divergeBoundR →
      optimizeMultivarLoop env f sc (fuel + 1) sd x
        = Except.error (PyError.runtimeError divergeMsg))
    ∧ (¬ euclNorm (x - d - x) > 2 * sd → ¬ euclNorm (x - d) > divergeBoundR →
      optimizeMultivarLoop env f sc (fuel + 1) sd x
        = optimizeMultivarLoop env f sc fuel (euclNorm (x - d - x)) (x - d))
    ∧ (∀ (sd' : ℝ) (y : Fin n → ℝ) (v : ℝ), sd' ≤ sc → f y = Except.ok v →
      optimizeMultivarLoop env f sc (fuel + 1) sd' y
        = Except.ok (VecLoopOut.result (VecResult.tuple y v))) := by
  have hbody : optimizeMultivarLoop env f sc (fuel + 1) sd x =
      (if euclNorm (x - d - x) > 2 * sd then
        Except.ok (VecLoopOut.result (VecResult.signal nonConvMsg))
      else if euclNorm (x - d) > divergeBoundR then
        Except.error (PyError.runtimeError divergeMsg)
      else
        optimizeMultivarLoop env f sc fuel (euclNorm (x - d - x)) (x - d)) := by
    rw [optimizeMultivarLoop_succ, if_pos hsd]
    simp only [hH, hg, hd]
  refine ⟨?_, ?_, ?_, ?_⟩
  · intro h1
    rw [hbody, if_pos h1]
  · intro h1 h2
    rw [hbody, if_neg h1, if_pos h2]
  · intro h1 h2
    rw [hbody, if_neg h1, if_neg h2]
  · intro sd' y v hsd' hv
    rw [optimizeMultivarLoop_succ, if_neg (not_lt.mpr hsd'), hv]

/-- Claim C8: `optimize_multivar` validates only that `fun` is callable
(raising `TypeError` otherwise); every `start` reaches the loop unexamined,
and a failure raised by the linear solve at the first iteration propagates
out of the call. -/
theorem claim8 {n : ℕ} (env : MultivarEnv n) (start : Fin n → ℝ) (ty : String)
    (F : VecFun n) (sc : ℝ) (fuel : Nat) (H : Matrix (Fin n) (Fin n) ℝ)
    (g : Fin n → ℝ) (e : PyError) :
    optimize_multivar env start (VecFunArg.notCallable ty) sc fuel
      = Except.error (PyError.typeError
          ("Argument fun is not a function. It is of type " ++ ty ++ "."))
    ∧ optimize_multivar env start (VecFunArg.callable F) sc fuel
      = optimizeMultivarLoop env F sc fuel (sc + 1) start
    ∧ (env.hessian F start = Except.ok H → env.gradient F start = Except.ok g →
        env.solve H g = Except.error e →
        optimizeMultivarLoop env F sc (fuel + 1) (sc + 1) start = Except.error e) := by
  refine ⟨rfl, rfl, ?_⟩
  intro hH hg he
  rw [optimizeMultivarLoop_succ, if_pos (lt_add_one sc)]
  simp only [hH, hg, he]

/-- Concrete one-dimensional environment for the C7 witness: gradient
constantly `(3)`, Hessian the identity, solver returning the right-hand
side. -/
def envSig : MultivarEnv 1 where
  gradient := fun _ _ => Except.ok (fun _ => 3)
  hessian := fun _ _ => Except.ok 1
  solve := fun _ g => Except.ok g

/-- A one-dimensional callable that always returns `0`. -/
def fZero : VecFun 1 := fun _ => Except.ok 0

/-- Witness for C7: from the origin with `step_diff = 1 > stop_crit = 0`, the
solved step `delta = (3)` gives a new step difference of Euclidean norm
`3 > 2 * 1`, so the loop returns the non-convergence signal. -/
theorem claim7_witness :
    optimizeMultivarLoop envSig fZero 0 (0 + 1) 1 (fun _ => 0)
      = Except.ok (VecLoopOut.result (VecResult.signal nonConvMsg)) := by
  have hnorm : euclNorm (((fun _ => (0 : ℝ)) - (fun _ => 3) - (fun _ => 0) : Fin 1 → ℝ)) = 3 := by
    have hv : ((fun _ => (0 : ℝ)) - (fun _ => 3) - (fun _ => 0) : Fin 1 → ℝ)
        = fun _ => -3 := by
      funext i
      simp
    rw [hv, euclNorm, Fin.sum_univ_one, show ((-3 : ℝ)) ^ 2 = 3 ^ 2 by norm_num,
      Real.sqrt_sq (by norm_num : (0 : ℝ) ≤ 3)]
  exact (claim7 envSig fZero 0 1 (fun _ => 0) (fun _ => 3) (fun _ => 3) 1 0
    (by norm_num) rfl rfl rfl).1 (by rw [hnorm]; norm_num)

/-- Environment whose linear solver always raises, standing for
`scipy.linalg.solve` on a singular or shape-mismatched system. -/
def envBad : MultivarEnv 1 where
  gradient := fun _ _ => Except.ok (fun _ => 1)
  hessian := fun _ _ => Except.ok 0
  solve := fun _ _ => Except.error (PyError.runtimeError "singular matrix")

/-- Witness for C8: with a callable `fun`, any `start` reaches the loop and
the solver failure at the first iteration propagates out of the call. -/
theorem claim8_witness :
    optimizeMultivarLoop envBad fZero 0 (0 + 1) (0 + 1) (fun _ => 0)
      = Except.error (PyError.runtimeError "singular matrix") :=
  (claim8 envBad (fun _ => 0) "int" fZero 0 0 0 (fun _ => 1)
      (PyError.runtimeError "singular matrix")).2.2 rfl rfl rfl

end Newton

